import Mathlib

/-!
Shallow embedding of the fsm-orchestrator core (TypeScript) in Lean 4.

Source files embedded:
  - src/orchestrator/Workflow.ts      (class Workflow)
  - src/orchestrator/Orchestrator.ts  (abstract class Orchestrator, in src/unnamed/part_003)
  - src/action/Action.ts              (class Action, in src/unnamed/part_002)
  - src/types/memory.ts, src/types/logs.ts, src/types/action.ts, src/types/index.ts

Modelling conventions:
  - `Record<string, unknown>` data objects are modelled as association lists
    `List (String × String)`; the core never inspects their contents, only
    stores and compares them.
  - JS `Map` (insertion-ordered) is modelled as an association list
    `List (String × α)` with `get` = first match and `set` = update-in-place
    if the key is present, append otherwise (JS Map.set semantics).
  - Mutation of objects held by reference (the Orchestrator's workflow list
    and task list) is modelled by explicit state passing: a method that
    mutates returns the updated structure, and the Orchestrator writes the
    mutated workflow/task back into its list at the position `find` located it.
  - Thrown exceptions become `Except`: a thrown JS error carries an optional
    message (`err?.message`), modelled as `Option String`.
  - `async`/`await` is single-threaded run-to-completion here, so an action's
    `invoke` is a plain function returning `Except (Option String) IActionLogData`.
  - `new Date()` timestamps and `uuidv4()` fresh ids are external inputs,
    passed as explicit parameters (`now : Nat`, `freshId : String`).
  - `IActionLogData.emitEvent` is an optional descriptor containing a
    function; the core only passes it through and no claim mentions it, so it
    is omitted from the record to keep equality decidable.
-/

namespace FSM

/-- `Record<string, unknown>` payload/data objects, modelled as association
lists of string keys to opaque string values. -/
abbrev Data := List (String × String)

/-- src/types/memory.ts: `IState = { key: string; data: Record<string, any> }`. -/
structure IState where
  key : String
  data : Data
deriving DecidableEq, Repr, Inhabited

/-- src/types/memory.ts: `IEvent = { key: string; payload?: Record<string, any> }`. -/
structure IEvent where
  key : String
  payload : Option Data := none
deriving DecidableEq, Repr, Inhabited

/-- src/types/action.ts: `TCanBeInvoked = { can: boolean; description: string }`. -/
structure TCanBeInvoked where
  can : Bool
  description : String
deriving DecidableEq, Repr, Inhabited

/-- src/types/logs.ts: `IActionLogData` (the `emitEvent` pass-through
descriptor is omitted; see module header). `cost: number` is modelled as `Int`. -/
structure IActionLogData where
  action_key : Option String := none
  cost : Int
  success : Bool
  message : Option String := none
  data : Option Data := none
  new_state : Option IState := none
deriving DecidableEq, Repr, Inhabited

/-- src/types/logs.ts: `IInvocationLog`. The ISO-8601 `timestamp` string is
modelled as the `Nat` clock value supplied to the call. -/
structure IInvocationLog where
  timestamp : Nat
  task_id : String
  success : Bool
  message : Option String := none
  event : IEvent
  action_log_data : Option IActionLogData := none
deriving DecidableEq, Repr, Inhabited

/-- src/types/index.ts: `ITask`. `createdAt: Date` is modelled as `Nat`. -/
structure ITask where
  id : String
  workflowKey : String
  state : IState
  createdAt : Nat
deriving DecidableEq, Repr, Inhabited

/-- src/action/Action.ts: class `Action`. The `_canBeInvoked` guard is a pure
predicate; `_perform` may throw, hence `Except (Option String) _` where the
error is the thrown error's optional `.message`. The opaque `Messenger`
argument is threaded through but never inspected by the core, so it is
dropped from the model. -/
structure Action where
  key : String
  description : String
  canBeInvoked : IState → TCanBeInvoked
  invoke : IState → Except (Option String) IActionLogData

/-- src/types/index.ts: `ITrigger = { action; condition }`. -/
structure ITrigger where
  action : Action
  condition : IState → IEvent → Bool

/-- JS `Map.get`: the value at the first (unique) matching key. -/
def alistGet {α : Type} (l : List (String × α)) (k : String) : Option α :=
  (l.find? (fun p => p.1 == k)).map (fun p => p.2)

/-- JS `Map.has`. -/
def alistHas {α : Type} (l : List (String × α)) (k : String) : Bool :=
  (alistGet l k).isSome

/-- JS `Map.set`: update in place when the key exists (keeping its position,
as JS Maps do), append otherwise. -/
def alistSet {α : Type} (l : List (String × α)) (k : String) (v : α) :
    List (String × α) :=
  match l with
  | [] => [(k, v)]
  | p :: ps => if p.1 == k then (k, v) :: ps else p :: alistSet ps k v

/-- Replace the first element satisfying `p` by `f` of it (how a mutation of
the object returned by JS `Array.find` shows up in the owning array). -/
def updateFirst {α : Type} (p : α → Bool) (f : α → α) : List α → List α
  | [] => []
  | x :: xs => if p x then f x :: xs else x :: updateFirst p f xs

/-- src/orchestrator/Workflow.ts: class `Workflow`. `state?` is the optional
current working state; `actions` and `conditions` are insertion-ordered maps
(`conditions` maps an event key to the ordered map of triggers by action key). -/
structure Workflow where
  key : String
  initialStateKey : String
  state : Option IState := none
  initialStateData : Data := []
  actions : List (String × Action) := []
  conditions : List (String × List (String × ITrigger)) := []

/-- Workflow.ts `setInitialStateData`. -/
def Workflow.setInitialStateData (w : Workflow) (d : Data) : Workflow :=
  { w with initialStateData := d }

/-- Workflow.ts `initState`: `state = { key: initialStateKey, data: initialStateData }`. -/
def Workflow.initState (w : Workflow) : Workflow :=
  { w with state := some { key := w.initialStateKey, data := w.initialStateData } }

/-- Workflow.ts `getState`. -/
def Workflow.getState (w : Workflow) : Option IState :=
  w.state

/-- Workflow.ts `setState`. -/
def Workflow.setState (w : Workflow) (s : IState) : Workflow :=
  { w with state := some s }

/-- Workflow.ts `registerAction`: throws when the action key is already in
the `actions` map, otherwise inserts. -/
def Workflow.registerAction (w : Workflow) (a : Action) : Except String Workflow :=
  if alistHas w.actions a.key then
    Except.error ("Action '" ++ a.key ++ "' is already registered in workflow '"
      ++ w.key ++ "'")
  else
    Except.ok { w with actions := alistSet w.actions a.key a }

/-- Workflow.ts `addTrigger`: unconditionally calls `registerAction(action)`
first (whose thrown conflict propagates), then throws `TriggerConflict` if a
trigger for `(eventKey, action.key)` exists, else binds it. -/
def Workflow.addTrigger (w : Workflow) (eventKey : String) (a : Action)
    (condition : IState → IEvent → Bool) : Except String Workflow :=
  match w.registerAction a with
  | Except.error e => Except.error e
  | Except.ok w =>
    let eventTriggers := (alistGet w.conditions eventKey).getD []
    if alistHas eventTriggers a.key then
      Except.error ("Trigger for action '" ++ a.key ++ "' already exists for event '"
        ++ eventKey ++ "' in workflow '" ++ w.key ++ "'")
    else
      let eventTriggers := alistSet eventTriggers a.key
        { action := a, condition := condition }
      Except.ok { w with conditions := alistSet w.conditions eventKey eventTriggers }

/-- The failed `IActionLogData` literals Workflow.handleEvent returns on its
non-invocation paths (`{ success: false, message, cost: 0, data: {} }`). -/
def failedResult (msg : String) : IActionLogData :=
  { success := false, message := some msg, cost := 0, data := some [] }

/-- The `try { ... } catch` block of Workflow.ts `handleEvent` (lines
120–135), run on the selected trigger: on a normal result the new working
state is `result.new_state` when `result.success` (note: directly the
optional field, so an absent `new_state` clears the working state), unchanged
otherwise; on a throw, the catch converts it to a failed result and the
working state is unchanged. -/
def invokeStep (t : ITrigger) (s : IState) : IActionLogData × Option IState :=
  match t.action.invoke s with
  | Except.ok result =>
      (result, if result.success then result.new_state else some s)
  | Except.error err =>
      (failedResult (err.getD "Action execution failed"), some s)

/-- Whether the loop of Workflow.ts `handleEvent` selects this trigger:
`condition(state, event)` passes and `canBeInvoked(state).can` passes. -/
def passes (s : IState) (event : IEvent) (t : ITrigger) : Bool :=
  t.condition s event && (t.action.canBeInvoked s).can

/-- The `for (const { action, condition } of triggers.values())` loop of
Workflow.ts `handleEvent` (lines 114–136): skip a trigger whose condition or
guard fails; at the first passing trigger, run `invokeStep` and return.
`none` means the loop fell through. -/
def runTriggers (s : IState) (event : IEvent) :
    List ITrigger → Option (IActionLogData × Option IState)
  | [] => none
  | t :: rest =>
    if passes s event t then some (invokeStep t s)
    else runTriggers s event rest

/-- The body of Workflow.ts `handleEvent` (lines 94–143) as a function of
everything it reads — the current working state and the trigger registry:
invalid-state and no-triggers checks, then the first-match loop. Returns the
action result together with the working state after the call (which the
source leaves untouched on every path except a normal invocation of a
selected action). -/
def resolve (st : Option IState) (conds : List (String × List (String × ITrigger)))
    (event : IEvent) : IActionLogData × Option IState :=
  match st with
  | none => (failedResult "Invalid state", none)
  | some s =>
    let triggers := alistGet conds event.key
    match triggers with
    | none =>
        (failedResult ("No triggers registered for event '" ++ event.key ++ "'"), some s)
    | some trigs =>
      if trigs.length == 0 then
        (failedResult ("No triggers registered for event '" ++ event.key ++ "'"), some s)
      else
        match runTriggers s event (trigs.map (fun p => p.2)) with
        | some pr => pr
        | none =>
            (failedResult ("No valid action could be executed for event '"
              ++ event.key ++ "'"), some s)

/-- Workflow.ts `handleEvent` (lines 90–144): runs `resolve` on the current
state and trigger registry, and stores the resulting working state back in
the instance's `state` field (on the paths where the source does not assign
`this.state`, `resolve` returns the incoming state unchanged, so the stored
field is unchanged too). -/
def Workflow.handleEvent (w : Workflow) (event : IEvent) :
    IActionLogData × Workflow :=
  let pr := resolve w.state w.conditions event
  (pr.1, { w with state := pr.2 })

/-- Orchestrator.ts (src/unnamed/part_003): abstract class `Orchestrator`'s
state — the workflow registry, task list and invocation-log sequence. -/
structure Orchestrator where
  workflows : List Workflow := []
  tasks : List ITask := []
  logs : List IInvocationLog := []

/-- Orchestrator.ts `registerWorkflow`: plain append, no uniqueness check. -/
def Orchestrator.registerWorkflow (o : Orchestrator) (w : Workflow) : Orchestrator :=
  { o with workflows := o.workflows ++ [w] }

/-- Orchestrator.ts `getWorkflow`: first workflow whose key matches. -/
def Orchestrator.getWorkflow (o : Orchestrator) (workflowKey : String) :
    Option Workflow :=
  o.workflows.find? (fun w => w.key == workflowKey)

/-- Orchestrator.ts `getTask`: first task whose id matches. -/
def Orchestrator.getTask (o : Orchestrator) (taskId : String) : Option ITask :=
  o.tasks.find? (fun t => t.id == taskId)

/-- Orchestrator.ts `initTask` (lines 41–60): throws `WorkflowNotFound` when
the key is unregistered; otherwise `setInitialStateData` when `initialData`
was supplied, `initState`, build the task from `getState()!` (guaranteed
`some` right after `initState`; `getD default` models the `!` assertion),
push it and return it. The mutations of the found workflow object are
written back at its position in the registry. -/
def Orchestrator.initTask (o : Orchestrator) (workflowKey : String)
    (initialData : Option Data) (freshId : String) (now : Nat) :
    Except String (ITask × Orchestrator) :=
  match o.getWorkflow workflowKey with
  | none => Except.error ("Workflow '" ++ workflowKey ++ "' not found")
  | some w =>
    let w := match initialData with
      | some d => w.setInitialStateData d
      | none => w
    let w := w.initState
    let task : ITask :=
      { id := freshId, workflowKey := w.key, state := w.getState.getD default,
        createdAt := now }
    Except.ok (task,
      { o with
        workflows := updateFirst (fun x => x.key == workflowKey) (fun _ => w)
          o.workflows,
        tasks := o.tasks ++ [task] })

/-- JS `!!` truthiness of an optional string (`!!result.action_key`):
`undefined` and `""` are falsy, any non-empty string is truthy. -/
def jsTruthyStr (o : Option String) : Bool :=
  o.getD "" != ""

/-- Orchestrator.ts `handleEvent` (lines 72–116): unknown task and unknown
workflow return a failed log without touching `logs`; otherwise hydrate the
workflow with the task's committed state, delegate to `Workflow.handleEvent`,
commit `result.new_state ?? task.state` onto the task when `result.success`,
append the invocation log (whose `success` is `!!result.action_key`) and
return it. The mutated workflow and task are written back at the positions
`find` located them. -/
def Orchestrator.handleEvent (o : Orchestrator) (taskId : String) (event : IEvent)
    (now : Nat) : IInvocationLog × Orchestrator :=
  match o.getTask taskId with
  | none =>
    ({ success := false, message := some ("Task '" ++ taskId ++ "' not found"),
       task_id := taskId, event := event, timestamp := now }, o)
  | some task =>
    match o.getWorkflow task.workflowKey with
    | none =>
      ({ success := false,
         message := some ("Workflow '" ++ task.workflowKey ++ "' not found for task"),
         task_id := task.id, event := event, timestamp := now }, o)
    | some workflow =>
      let wr := (workflow.setState task.state).handleEvent event
      let result := wr.1
      let task2 := if result.success then
          { task with state := result.new_state.getD task.state }
        else task
      let invocation_log : IInvocationLog :=
        { action_log_data := some result, task_id := task2.id, event := event,
          success := jsTruthyStr result.action_key, timestamp := now }
      (invocation_log,
        { o with
          workflows := updateFirst (fun w => w.key == task.workflowKey)
            (fun _ => wr.2) o.workflows,
          tasks := updateFirst (fun t => t.id == taskId) (fun _ => task2) o.tasks,
          logs := o.logs ++ [invocation_log] })

/-! ### Concrete fixtures

Small concrete workflows, actions and orchestrators used by the witness and
counterexample theorems below. They are built through the public operations
(`addTrigger`, `registerWorkflow`, `initTask`) exactly as the repository's
examples build theirs. -/

/-- A trigger condition that always passes. -/
def condTrue : IState → IEvent → Bool := fun _ _ => true

/-- A trigger condition that never passes. -/
def condFalse : IState → IEvent → Bool := fun _ _ => false

/-- A guard whose `can` is always true. -/
def guardOk : IState → TCanBeInvoked := fun _ => { can := true, description := "ok" }

/-- The state the fixture actions transition to. -/
def stNext : IState := { key := "next", data := [] }

/-- The fixture workflows' initial working state (initial key `init`, empty
initial data). -/
def sInit : IState := { key := "init", data := [] }

/-- The fixture event with key `e1`. -/
def evE1 : IEvent := { key := "e1" }

/-- A fixture event with key `e2`. -/
def evE2 : IEvent := { key := "e2" }

/-- Action `a0`: succeeds and moves to `stNext`; used as the skipped first
trigger in priority fixtures. -/
def actSkip : Action :=
  { key := "a0", description := "skipped",
    canBeInvoked := guardOk,
    invoke := fun _ => Except.ok
      { action_key := some "a0", cost := 5, success := true, new_state := some stNext } }

/-- Action `a1`: succeeds and moves to `stNext`. -/
def actGood : Action :=
  { key := "a1", description := "good",
    canBeInvoked := guardOk,
    invoke := fun _ => Except.ok
      { action_key := some "a1", cost := 1, success := true, new_state := some stNext } }

/-- Action `a2`: reports `success: true` but returns no `new_state` field. -/
def actNoNew : Action :=
  { key := "a2", description := "no new state",
    canBeInvoked := guardOk,
    invoke := fun _ => Except.ok
      { action_key := some "a2", cost := 1, success := true } }

/-- Action `a3`: returns the empty string as its `action_key` (a present but
JS-falsy key) with `success: true`. -/
def actEmptyKey : Action :=
  { key := "a3", description := "empty action_key",
    canBeInvoked := guardOk,
    invoke := fun _ => Except.ok
      { action_key := some "", cost := 1, success := true, new_state := some stNext } }

/-- Action `a4`: its body throws an error whose message is `boom`. -/
def actThrow : Action :=
  { key := "a4", description := "throws",
    canBeInvoked := guardOk,
    invoke := fun _ => Except.error (some "boom") }

/-- Action `a5`: returns a failed result (`success: false`). -/
def actFail : Action :=
  { key := "a5", description := "fails",
    canBeInvoked := guardOk,
    invoke := fun _ => Except.ok
      { action_key := some "a5", cost := 2, success := false, new_state := some stNext } }

/-- The bare fixture workflow: key `wf`, initial state key `init`, nothing
registered yet. -/
def wfBase : Workflow := { key := "wf", initialStateKey := "init" }

/-- Extract the workflow from a configuration step that is expected to
succeed (fixture plumbing only). -/
def okWf (r : Except String Workflow) : Workflow :=
  match r with
  | Except.ok w => w
  | Except.error _ => wfBase

/-- `wf` with the single trigger `(e1, a1)` whose condition always passes. -/
def wfGood : Workflow := okWf (wfBase.addTrigger "e1" actGood condTrue)

/-- `wf` with trigger `(e1, a2)` — succeeding action without `new_state`. -/
def wfNoNew : Workflow := okWf (wfBase.addTrigger "e1" actNoNew condTrue)

/-- `wf` with trigger `(e1, a3)` — action whose `action_key` is `""`. -/
def wfEmptyKey : Workflow := okWf (wfBase.addTrigger "e1" actEmptyKey condTrue)

/-- `wf` with trigger `(e1, a4)` — action that throws. -/
def wfThrow : Workflow := okWf (wfBase.addTrigger "e1" actThrow condTrue)

/-- `wf` with trigger `(e1, a5)` — action that returns a failed result. -/
def wfFail : Workflow := okWf (wfBase.addTrigger "e1" actFail condTrue)

/-- `wf` with two triggers on `e1`, in registration order: first `(e1, a0)`
with an always-false condition, then `(e1, a1)` with an always-true one. -/
def wfTwo : Workflow :=
  okWf (do
    let w ← wfBase.addTrigger "e1" actSkip condFalse
    w.addTrigger "e1" actGood condTrue)

/-- An orchestrator holding workflow `w` and one task `t1` created by
`initTask "wf"` with no initial data (fixture plumbing only). -/
def mkOrch (w : Workflow) : Orchestrator :=
  match (Orchestrator.registerWorkflow {} w).initTask "wf" none "t1" 0 with
  | Except.ok (_, o) => o
  | Except.error _ => {}

/-- The empty orchestrator: no workflows, no tasks, no logs. -/
def oEmpty : Orchestrator := {}

/-- An orchestrator whose only task `t1` references the unregistered
workflow key `ghost-wf` (the task list is seeded directly, as no public
operation can produce a dangling task; the workflow registry is empty). -/
def oDangling : Orchestrator :=
  { workflows := [],
    tasks := [{ id := "t1", workflowKey := "ghost-wf", state := sInit, createdAt := 0 }],
    logs := [] }

/-- An orchestrator holding only the bare workflow `wf` and no tasks. -/
def oWfBase : Orchestrator := Orchestrator.registerWorkflow {} wfBase

/-- Extract the orchestrator from an `initTask` call that is expected to
succeed (fixture plumbing only). -/
def okOrch (r : Except String (ITask × Orchestrator)) : Orchestrator :=
  match r with
  | Except.ok (_, o) => o
  | Except.error _ => oEmpty

/-- Extract the task from an `initTask` call that is expected to succeed
(fixture plumbing only). -/
def okTask (r : Except String (ITask × Orchestrator)) : ITask :=
  match r with
  | Except.ok (t, _) => t
  | Except.error _ => default

/-- `oWfBase` after a first `initTask "wf"` call that supplied the initial
data `x ↦ 1`. -/
def oAfterFirstInit : Orchestrator :=
  okOrch (oWfBase.initTask "wf" (some [("x", "1")]) "id1" 0)

/-! ### Helper lemmas -/

/-- Updating the first `p`-match of a list keeps it the first `p`-match, as
long as the update preserves `p`. -/
theorem find?_updateFirst {α : Type} (p : α → Bool) (f : α → α) :
    ∀ (l : List α) (x : α), l.find? p = some x → p (f x) = true →
      (updateFirst p f l).find? p = some (f x) := by
  intro l
  induction l with
  | nil => intro x hx _; simp [List.find?] at hx
  | cons a as ih =>
    intro x hx hf
    cases h : p a with
    | true =>
      rw [List.find?_cons_of_pos _ h] at hx
      cases hx
      simp only [updateFirst, h, if_true]
      exact List.find?_cons_of_pos _ hf
    | false =>
      rw [List.find?_cons_of_neg _ (by simp [h])] at hx
      simp only [updateFirst, h, Bool.false_eq_true, if_false]
      rw [List.find?_cons_of_neg _ (by simp [h])]
      exact ih x hx hf

/-- `alistSet` makes the key present. -/
theorem alistHas_alistSet {α : Type} (l : List (String × α)) (k : String) (v : α) :
    alistHas (alistSet l k v) k = true := by
  induction l with
  | nil => simp [alistSet, alistHas, alistGet, List.find?]
  | cons p ps ih =>
    cases h : (p.1 == k) with
    | true => simp [alistSet, h, alistHas, alistGet, List.find?]
    | false =>
      simp only [alistSet, h, Bool.false_eq_true, if_false]
      simpa [alistHas, alistGet, List.find?, h] using ih

/-- `registerAction` on an already-present action key fails with the
`ActionKeyConflict` error. -/
theorem registerAction_of_has (w : Workflow) (a : Action)
    (h : alistHas w.actions a.key = true) :
    w.registerAction a = Except.error
      ("Action '" ++ a.key ++ "' is already registered in workflow '"
        ++ w.key ++ "'") := by
  simp [Workflow.registerAction, h]

/-- A successful `addTrigger` has gone through `registerAction`: the new
workflow's action registry holds the action under its key, and the workflow
key is unchanged. -/
theorem addTrigger_ok_actions (w : Workflow) (ek : String) (a : Action)
    (c : IState → IEvent → Bool) (w1 : Workflow)
    (h : w.addTrigger ek a c = Except.ok w1) :
    w1.actions = alistSet w.actions a.key a ∧ w1.key = w.key := by
  unfold Workflow.addTrigger Workflow.registerAction at h
  cases hh : alistHas w.actions a.key with
  | true => simp [hh] at h
  | false =>
    simp only [hh, Bool.false_eq_true, if_false] at h
    cases ht : alistHas (alistGet
        { w with actions := alistSet w.actions a.key a }.conditions ek |>.getD []) a.key with
    | true => simp [ht] at h
    | false =>
      simp only [ht, Bool.false_eq_true, if_false, Except.ok.injEq] at h
      cases h
      exact ⟨rfl, rfl⟩

/-- The first passing trigger decides the loop's outcome: whatever the
earlier (all failing) and later triggers are, `runTriggers` returns the
invocation step of the first trigger whose condition and guard both pass. -/
theorem runTriggers_first (s : IState) (e : IEvent) :
    ∀ (l1 : List ITrigger) (t : ITrigger) (l2 : List ITrigger),
      (∀ t2 ∈ l1, passes s e t2 = false) → passes s e t = true →
      runTriggers s e (l1 ++ t :: l2) = some (invokeStep t s) := by
  intro l1
  induction l1 with
  | nil => intro t l2 _ ht; simp [runTriggers, ht]
  | cons b bs ih =>
    intro t l2 h1 ht
    have hb : passes s e b = false := h1 b (by simp)
    simp only [List.cons_append, runTriggers, hb, Bool.false_eq_true, if_false]
    exact ih t l2 (fun t2 h => h1 t2 (by simp [h])) ht

/-- Unfolding of `resolve` when triggers exist for the event and the trigger
list splits as failing prefix `l1`, first passing trigger `t`, arbitrary
suffix `l2`: the outcome is `invokeStep` of `t`. -/
theorem resolve_selected (conds : List (String × List (String × ITrigger)))
    (e : IEvent) (s : IState)
    (trigs : List (String × ITrigger)) (l1 l2 : List ITrigger) (t : ITrigger)
    (hc : alistGet conds e.key = some trigs)
    (hsplit : trigs.map (fun q => q.2) = l1 ++ t :: l2)
    (h1 : ∀ t2 ∈ l1, passes s e t2 = false) (ht : passes s e t = true) :
    resolve (some s) conds e = invokeStep t s := by
  have hlen : (trigs.length == 0) = false := by
    have hl := congrArg List.length hsplit
    simp only [List.length_map, List.length_append, List.length_cons] at hl
    simp [hl]
  unfold resolve
  simp only [hc, hlen, Bool.false_eq_true, if_false, hsplit,
    runTriggers_first s e l1 t l2 h1 ht]

/-- A workflow instance whose current state is unset answers every event
with the invalid-state failure. -/
theorem handleEvent_invalid_state (x : Workflow) (e : IEvent) (hx : x.state = none) :
    (x.handleEvent e).1 = failedResult "Invalid state" := by
  unfold Workflow.handleEvent
  rw [hx]
  rfl

/-- Unfolding of `Workflow.handleEvent` when a state is set and a trigger is
selected, stated on the result and the stored state. -/
theorem handleEvent_selected (w : Workflow) (e : IEvent) (s : IState)
    (trigs : List (String × ITrigger)) (l1 l2 : List ITrigger) (t : ITrigger)
    (hs : w.state = some s) (hc : alistGet w.conditions e.key = some trigs)
    (hsplit : trigs.map (fun q => q.2) = l1 ++ t :: l2)
    (h1 : ∀ t2 ∈ l1, passes s e t2 = false) (ht : passes s e t = true) :
    (w.handleEvent e).1 = (invokeStep t s).1
    ∧ (w.handleEvent e).2.state = (invokeStep t s).2 := by
  unfold Workflow.handleEvent
  rw [hs, resolve_selected w.conditions e s trigs l1 l2 t hc hsplit h1 ht]
  exact ⟨rfl, rfl⟩

/-- `jsTruthyStr` holds exactly of a present, non-empty string. -/
theorem jsTruthyStr_eq_true_iff (x : Option String) :
    jsTruthyStr x = true ↔ ∃ k, x = some k ∧ k ≠ "" := by
  cases x with
  | none => simp [jsTruthyStr]
  | some k => simp [jsTruthyStr]

/-- Unfolding of `Orchestrator.handleEvent` when the task lookup fails. -/
theorem orch_handleEvent_no_task (o : Orchestrator) (tid : String) (e : IEvent)
    (now : Nat) (h : o.getTask tid = none) :
    Orchestrator.handleEvent o tid e now =
      ({ success := false, message := some ("Task '" ++ tid ++ "' not found"),
         task_id := tid, event := e, timestamp := now }, o) := by
  simp only [Orchestrator.handleEvent, h]

/-- Unfolding of `Orchestrator.handleEvent` when the task is found but its
workflow key is unregistered. -/
theorem orch_handleEvent_no_workflow (o : Orchestrator) (tid : String) (e : IEvent)
    (now : Nat) (task : ITask) (htask : o.getTask tid = some task)
    (hw : o.getWorkflow task.workflowKey = none) :
    Orchestrator.handleEvent o tid e now =
      ({ success := false,
         message := some ("Workflow '" ++ task.workflowKey ++ "' not found for task"),
         task_id := task.id, event := e, timestamp := now }, o) := by
  simp only [Orchestrator.handleEvent, htask, hw]

/-- Unfolding of `Orchestrator.handleEvent` when both lookups succeed. -/
theorem orch_handleEvent_found (o : Orchestrator) (tid : String) (e : IEvent)
    (now : Nat) (task : ITask) (w : Workflow)
    (htask : o.getTask tid = some task) (hw : o.getWorkflow task.workflowKey = some w) :
    Orchestrator.handleEvent o tid e now =
      (let wr := (w.setState task.state).handleEvent e
       let result := wr.1
       let task2 := if result.success then
           { task with state := result.new_state.getD task.state }
         else task
       let invocation_log : IInvocationLog :=
         { action_log_data := some result, task_id := task2.id, event := e,
           success := jsTruthyStr result.action_key, timestamp := now }
       (invocation_log,
         { o with
           workflows := updateFirst (fun x => x.key == task.workflowKey)
             (fun _ => wr.2) o.workflows,
           tasks := updateFirst (fun t => t.id == tid) (fun _ => task2) o.tasks,
           logs := o.logs ++ [invocation_log] })) := by
  simp only [Orchestrator.handleEvent, htask, hw]

/-- Claim C2: for every workflow state, event and registration order,
`Workflow.handleEvent` walks the event's triggers in registration order and
invokes exactly the first trigger `t` whose condition and guard both pass:
the call's result and resulting working state are those of invoking `t`
alone (`invokeStep`, which covers normal, failed and thrown outcomes), for
every suffix `l2` of later-registered triggers — so no later trigger is ever
consulted, even when the selected invocation fails or throws. -/
theorem C2_first_match_no_backtracking (w : Workflow) (e : IEvent) (s : IState)
    (trigs : List (String × ITrigger)) (l1 l2 : List ITrigger) (t : ITrigger)
    (hs : w.state = some s) (hc : alistGet w.conditions e.key = some trigs)
    (hsplit : trigs.map (fun q => q.2) = l1 ++ t :: l2)
    (h1 : ∀ t2 ∈ l1, passes s e t2 = false) (ht : passes s e t = true) :
    (w.handleEvent e).1 = (invokeStep t s).1
    ∧ (w.handleEvent e).2.state = (invokeStep t s).2 :=
  handleEvent_selected w e s trigs l1 l2 t hs hc hsplit h1 ht

/-- Witness for C2 on the two-trigger fixture: the first-registered trigger
`(e1, a0)` has a failing condition, so the second `(e1, a1)` is selected. -/
theorem C2_first_match_no_backtracking_witness :
    ((wfTwo.setState sInit).handleEvent evE1).1
      = (invokeStep { action := actGood, condition := condTrue } sInit).1
    ∧ ((wfTwo.setState sInit).handleEvent evE1).2.state
      = (invokeStep { action := actGood, condition := condTrue } sInit).2 :=
  C2_first_match_no_backtracking (wfTwo.setState sInit) evE1 sInit
    [("a0", { action := actSkip, condition := condFalse }),
     ("a1", { action := actGood, condition := condTrue })]
    [{ action := actSkip, condition := condFalse }] []
    { action := actGood, condition := condTrue }
    rfl rfl rfl
    (by intro t2 h2; simp only [List.mem_singleton] at h2; subst h2; rfl) rfl

/-- Claim C6: when the selected trigger's action throws an exception with
message `m`, `Workflow.handleEvent` returns the failed result carrying `m`
with `cost 0`, and the workflow's current state is left unchanged; the error
is converted exactly once (the result is that single conversion) and no
further invocation is attempted. -/
theorem C6_thrown_action_contained (w : Workflow) (e : IEvent) (s : IState)
    (trigs : List (String × ITrigger)) (l1 l2 : List ITrigger) (t : ITrigger)
    (m : String)
    (hs : w.state = some s) (hc : alistGet w.conditions e.key = some trigs)
    (hsplit : trigs.map (fun q => q.2) = l1 ++ t :: l2)
    (h1 : ∀ t2 ∈ l1, passes s e t2 = false) (ht : passes s e t = true)
    (hinv : t.action.invoke s = Except.error (some m)) :
    (w.handleEvent e).1
      = { success := false, message := some m, cost := 0, data := some [] }
    ∧ (w.handleEvent e).2.state = w.state := by
  obtain ⟨h1r, h2r⟩ := handleEvent_selected w e s trigs l1 l2 t hs hc hsplit h1 ht
  rw [h1r, h2r]
  simp [invokeStep, hinv, failedResult, hs]

/-- Witness for C6 on the throwing fixture `wf` with trigger `(e1, a4)`. -/
theorem C6_thrown_action_contained_witness :
    ((wfThrow.setState sInit).handleEvent evE1).1
      = { success := false, message := some "boom", cost := 0, data := some [] }
    ∧ ((wfThrow.setState sInit).handleEvent evE1).2.state
      = (wfThrow.setState sInit).state :=
  C6_thrown_action_contained (wfThrow.setState sInit) evE1 sInit
    [("a4", { action := actThrow, condition := condTrue })] []
    [] { action := actThrow, condition := condTrue } "boom"
    rfl rfl rfl (by intro t2 h2; cases h2) rfl rfl

/-- Claim C9: `Workflow.handleEvent` is deterministic — its result and
resulting working state are a function of the current state, the trigger
registry and the event only: two workflows agreeing on state and triggers
produce identical outcomes for the same event. -/
theorem C9_handleEvent_deterministic (w1 w2 : Workflow) (e : IEvent)
    (hst : w1.state = w2.state) (hcond : w1.conditions = w2.conditions) :
    (w1.handleEvent e).1 = (w2.handleEvent e).1
    ∧ (w1.handleEvent e).2.state = (w2.handleEvent e).2.state := by
  unfold Workflow.handleEvent
  rw [hst, hcond]
  exact ⟨rfl, rfl⟩

/-- Witness for C9: two workflows that differ in key and action registry but
agree on state and triggers behave identically on `e1`. -/
theorem C9_handleEvent_deterministic_witness :
    (((wfGood.setState sInit)).handleEvent evE1).1
      = (({ wfGood with key := "other" }.setState sInit).handleEvent evE1).1
    ∧ (((wfGood.setState sInit)).handleEvent evE1).2.state
      = (({ wfGood with key := "other" }.setState sInit).handleEvent evE1).2.state :=
  C9_handleEvent_deterministic (wfGood.setState sInit)
    ({ wfGood with key := "other" }.setState sInit) evE1 rfl rfl

/-- Claim C5: `Orchestrator.handleEvent` is total over all (taskId, event)
inputs — it always returns an invocation log, lookup failures being
structured results rather than exceptions — and when the task id matches no
registered task the returned log has `success = false` and its `task_id`
equals the given id. -/
theorem C5_total_unknown_task (o : Orchestrator) (tid : String) (e : IEvent)
    (now : Nat) :
    (∃ log o2, Orchestrator.handleEvent o tid e now = (log, o2))
    ∧ (o.getTask tid = none →
        (Orchestrator.handleEvent o tid e now).1.success = false
        ∧ (Orchestrator.handleEvent o tid e now).1.task_id = tid) := by
  refine ⟨⟨_, _, rfl⟩, fun h => ?_⟩
  rw [orch_handleEvent_no_task o tid e now h]
  exact ⟨rfl, rfl⟩

/-- Witness for C5 at the empty orchestrator and a nonexistent task id. -/
theorem C5_total_unknown_task_witness :
    (∃ log o2, Orchestrator.handleEvent oEmpty "nonexistent-id" evE1 9 = (log, o2))
    ∧ ((Orchestrator.handleEvent oEmpty "nonexistent-id" evE1 9).1.success = false
        ∧ (Orchestrator.handleEvent oEmpty "nonexistent-id" evE1 9).1.task_id
            = "nonexistent-id") :=
  ⟨(C5_total_unknown_task oEmpty "nonexistent-id" evE1 9).1,
   (C5_total_unknown_task oEmpty "nonexistent-id" evE1 9).2 rfl⟩

/-- Counterexample to claim C3 as stated: on an unknown task id, and on a
task whose workflow key is unregistered, `Orchestrator.handleEvent` returns
a failed log entry but appends nothing to the log sequence, so "appends
exactly one entry regardless of outcome (including when the task id is
unknown or the workflow is unregistered)" is false. -/
theorem C3_counterexample :
    (Orchestrator.handleEvent oEmpty "ghost" evE1 5).2.logs.length = 0
    ∧ (Orchestrator.handleEvent oDangling "t1" evE1 5).2.logs.length = 0
    ∧ (Orchestrator.handleEvent oEmpty "ghost" evE1 5).1.success = false :=
  ⟨rfl, rfl, rfl⟩

/-- Claim C3 (amended): `Orchestrator.handleEvent` appends exactly one
`InvocationLog` entry — the entry it returns — when both the task and the
workflow lookup succeed; when either lookup fails it returns a failed log
entry without appending it, leaving the log sequence unchanged. -/
theorem C3_append_iff_lookups_succeed (o : Orchestrator) (tid : String)
    (e : IEvent) (now : Nat) :
    (o.getTask tid = none → (Orchestrator.handleEvent o tid e now).2.logs = o.logs)
    ∧ (∀ task, o.getTask tid = some task → o.getWorkflow task.workflowKey = none →
        (Orchestrator.handleEvent o tid e now).2.logs = o.logs)
    ∧ (∀ task w, o.getTask tid = some task → o.getWorkflow task.workflowKey = some w →
        (Orchestrator.handleEvent o tid e now).2.logs
          = o.logs ++ [(Orchestrator.handleEvent o tid e now).1]) := by
  refine ⟨fun h => ?_, fun task h hw => ?_, fun task w h hw => ?_⟩
  · rw [orch_handleEvent_no_task o tid e now h]
  · rw [orch_handleEvent_no_workflow o tid e now task h hw]
  · rw [orch_handleEvent_found o tid e now task w h hw]

/-- Witness for C3 on the good fixture: the appended entry is the returned
entry. -/
theorem C3_append_iff_lookups_succeed_witness :
    (Orchestrator.handleEvent (mkOrch wfGood) "t1" evE1 2).2.logs
      = (mkOrch wfGood).logs
        ++ [(Orchestrator.handleEvent (mkOrch wfGood) "t1" evE1 2).1] :=
  (C3_append_iff_lookups_succeed (mkOrch wfGood) "t1" evE1 2).2.2
    { id := "t1", workflowKey := "wf", state := sInit, createdAt := 0 }
    { wfGood with state := some sInit } rfl rfl

/-- Counterexample to claim C1 as stated (the "if" direction of the
biconditional): on the fixture whose action reports `success = true` without
a `new_state`, the workflow result has `success = true` yet the task's
committed state after the call equals its state before the call. -/
theorem C1_counterexample :
    ((Orchestrator.handleEvent (mkOrch wfNoNew) "t1" evE1 3).1.action_log_data.map
        (fun r => r.success)) = some true
    ∧ ((Orchestrator.handleEvent (mkOrch wfNoNew) "t1" evE1 3).2.getTask "t1").map
        (fun t => t.state) = some sInit
    ∧ ((mkOrch wfNoNew).getTask "t1").map (fun t => t.state) = some sInit :=
  ⟨rfl, rfl, rfl⟩

/-- Claim C1 (amended): a task's committed state changes only if the result
returned by the workflow has `success = true` — in particular, on any
runtime failure (including a thrown action exception, which the workflow
converts into a failed result) the committed state after the call equals the
state before. The converse direction of the original claim fails: a
successful result may leave the committed state unchanged (no `new_state`,
or an identical one). -/
theorem C1_commit_only_on_success (o : Orchestrator) (tid : String) (e : IEvent)
    (now : Nat) (task task2 : ITask)
    (htask : o.getTask tid = some task)
    (hafter : (Orchestrator.handleEvent o tid e now).2.getTask tid = some task2)
    (hchange : task2.state ≠ task.state) :
    ∃ r, (Orchestrator.handleEvent o tid e now).1.action_log_data = some r
      ∧ r.success = true := by
  have htask2 : o.tasks.find? (fun t => t.id == tid) = some task := htask
  have hid : (task.id == tid) = true := by
    have h2 := List.find?_some htask2
    exact h2
  cases hw : o.getWorkflow task.workflowKey with
  | none =>
    rw [orch_handleEvent_no_workflow o tid e now task htask hw] at hafter
    simp only at hafter
    rw [htask] at hafter
    cases hafter
    exact absurd rfl hchange
  | some w =>
    rw [orch_handleEvent_found o tid e now task w htask hw] at hafter ⊢
    simp only at hafter ⊢
    cases hsucc : ((w.setState task.state).handleEvent e).1.success with
    | false =>
      unfold Orchestrator.getTask at hafter
      simp only [hsucc, Bool.false_eq_true, if_false] at hafter
      rw [find?_updateFirst (fun t => t.id == tid) (fun _ => task) o.tasks task
        htask2 hid] at hafter
      cases hafter
      exact absurd rfl hchange
    | true => exact ⟨_, rfl, hsucc⟩

/-- Witness for C1 on the good fixture, where the committed state does
change from `init` to `next`. -/
theorem C1_commit_only_on_success_witness :
    ∃ r, (Orchestrator.handleEvent (mkOrch wfGood) "t1" evE1 3).1.action_log_data
          = some r
      ∧ r.success = true :=
  C1_commit_only_on_success (mkOrch wfGood) "t1" evE1 3
    { id := "t1", workflowKey := "wf", state := sInit, createdAt := 0 }
    { id := "t1", workflowKey := "wf", state := stNext, createdAt := 0 }
    rfl rfl (by decide)

/-- Counterexample to claim C7 as stated: on the fixture whose action
returns the empty string as `action_key`, the key is present in the result
(and the result's own `success` is even true), yet the appended log's
`success` flag is false — `!!result.action_key` is JS truthiness, not
presence. -/
theorem C7_counterexample :
    ((Orchestrator.handleEvent (mkOrch wfEmptyKey) "t1" evE1 4).1.action_log_data.bind
        (fun r => r.action_key)) = some ""
    ∧ ((Orchestrator.handleEvent (mkOrch wfEmptyKey) "t1" evE1 4).1.action_log_data.map
        (fun r => r.success)) = some true
    ∧ (Orchestrator.handleEvent (mkOrch wfEmptyKey) "t1" evE1 4).1.success = false :=
  ⟨rfl, rfl, rfl⟩

/-- Claim C7 (amended): when both lookups succeed, the appended and returned
log's `success` flag is true exactly when the workflow's action result
carries a non-empty `action_key` (the JS truthiness of
`!!result.action_key`) — independent of the action result's own `success`
flag; a present-but-empty `action_key` yields `success = false`. -/
theorem C7_success_iff_nonempty_action_key (o : Orchestrator) (tid : String)
    (e : IEvent) (now : Nat) (task : ITask) (w : Workflow)
    (htask : o.getTask tid = some task)
    (hw : o.getWorkflow task.workflowKey = some w) :
    (Orchestrator.handleEvent o tid e now).1.action_log_data
      = some ((w.setState task.state).handleEvent e).1
    ∧ ((Orchestrator.handleEvent o tid e now).1.success = true
        ↔ ∃ k, ((w.setState task.state).handleEvent e).1.action_key = some k
            ∧ k ≠ "") := by
  rw [orch_handleEvent_found o tid e now task w htask hw]
  exact ⟨rfl, jsTruthyStr_eq_true_iff _⟩

/-- Witness for C7 on the good fixture (action key `a1`, non-empty). -/
theorem C7_success_iff_nonempty_action_key_witness :
    (Orchestrator.handleEvent (mkOrch wfGood) "t1" evE1 4).1.action_log_data
      = some ((({ wfGood with state := some sInit } : Workflow).setState
          sInit).handleEvent evE1).1
    ∧ ((Orchestrator.handleEvent (mkOrch wfGood) "t1" evE1 4).1.success = true
        ↔ ∃ k, ((({ wfGood with state := some sInit } : Workflow).setState
            sInit).handleEvent evE1).1.action_key = some k ∧ k ≠ "") :=
  C7_success_iff_nonempty_action_key (mkOrch wfGood) "t1" evE1 4
    { id := "t1", workflowKey := "wf", state := sInit, createdAt := 0 }
    { wfGood with state := some sInit } rfl rfl

/-- Unfolding of `Orchestrator.initTask` when the workflow is found. -/
theorem initTask_found (o : Orchestrator) (wk : String) (d : Option Data)
    (fid : String) (now : Nat) (w : Workflow) (h : o.getWorkflow wk = some w) :
    o.initTask wk d fid now = Except.ok
      (let w2 := (match d with
        | some dd => w.setInitialStateData dd
        | none => w).initState
       let task : ITask :=
         { id := fid, workflowKey := w2.key, state := w2.getState.getD default,
           createdAt := now }
       (task,
        { o with
          workflows := updateFirst (fun x => x.key == wk) (fun _ => w2) o.workflows,
          tasks := o.tasks ++ [task] })) := by
  simp only [Orchestrator.initTask, h]

/-- Counterexample to claim C8 as stated: the workflow object keeps the
`initialStateData` from a previous `initTask` call, so a second call that
omits `initialData` builds its task from the first call's data rather than
from the (absent) data supplied to this call — while on a fresh workflow an
omitted `initialData` yields the empty data object. -/
theorem C8_counterexample :
    (okTask (oAfterFirstInit.initTask "wf" none "id2" 1)).state.data = [("x", "1")]
    ∧ (okTask (oWfBase.initTask "wf" none "idZ" 0)).state.data = [] :=
  ⟨rfl, rfl⟩

/-- Claim C8 (amended): `initTask` fails with `WorkflowNotFound` exactly
when the key is unregistered; otherwise it returns and appends a task whose
state key is the workflow's `initialStateKey` and whose state data is the
supplied `initialData` when present — but, when `initialData` is omitted,
the workflow object's current `initialStateData`, which persists from any
earlier `initTask` call on the same workflow (initially empty). -/
theorem C8_initTask_state_and_append (o : Orchestrator) (wk : String)
    (d : Option Data) (fid : String) (now : Nat) :
    (o.getWorkflow wk = none →
      o.initTask wk d fid now
        = Except.error ("Workflow '" ++ wk ++ "' not found"))
    ∧ (∀ w, o.getWorkflow wk = some w →
        ∃ t o2, o.initTask wk d fid now = Except.ok (t, o2)
          ∧ t.state = { key := w.initialStateKey, data := d.getD w.initialStateData }
          ∧ t.id = fid ∧ t.workflowKey = w.key ∧ t.createdAt = now
          ∧ o2.tasks = o.tasks ++ [t]) := by
  constructor
  · intro h
    simp only [Orchestrator.initTask, h]
  · intro w h
    rw [initTask_found o wk d fid now w h]
    cases d with
    | none => exact ⟨_, _, rfl, rfl, rfl, rfl, rfl, rfl⟩
    | some dd => exact ⟨_, _, rfl, rfl, rfl, rfl, rfl, rfl⟩

/-- Witness for C8 (amended) at the bare fixture workflow with supplied
initial data. -/
theorem C8_initTask_state_and_append_witness :
    ∃ t o2, oWfBase.initTask "wf" (some [("x", "1")]) "id1" 0 = Except.ok (t, o2)
      ∧ t.state = { key := wfBase.initialStateKey,
                    data := (some [("x", "1")]).getD wfBase.initialStateData }
      ∧ t.id = "id1" ∧ t.workflowKey = wfBase.key ∧ t.createdAt = 0
      ∧ o2.tasks = oWfBase.tasks ++ [t] :=
  (C8_initTask_state_and_append oWfBase "wf" (some [("x", "1")]) "id1" 0).2
    wfBase rfl

/-- Counterexample to claim C4 as stated: binding the same action under a
second, different event key does fail — `addTrigger` unconditionally calls
`registerAction`, which raises the `ActionKeyConflict` error. (By the same
mechanism, an exact duplicate `(eventKey, action.key)` registration also
raises `ActionKeyConflict`, never reaching the `TriggerConflict` check.) -/
theorem C4_counterexample :
    wfBase.addTrigger "e1" actGood condTrue = Except.ok wfGood
    ∧ wfGood.addTrigger "e2" actGood condTrue
      = Except.error "Action 'a1' is already registered in workflow 'wf'"
    ∧ wfGood.addTrigger "e1" actGood condTrue
      = Except.error "Action 'a1' is already registered in workflow 'wf'" :=
  ⟨rfl, rfl, rfl⟩

/-- Claim C4 (amended): `addTrigger` always calls `registerAction` first, so
once an action has been bound by a successful `addTrigger`, any further
`addTrigger` with the same action — under any event key, different or
identical — fails with the `ActionKeyConflict` error (and therefore never
with `TriggerConflict`). -/
theorem C4_rebind_action_key_conflict (w w1 : Workflow) (ek1 ek2 : String)
    (a : Action) (c1 c2 : IState → IEvent → Bool)
    (h1 : w.addTrigger ek1 a c1 = Except.ok w1) :
    w1.addTrigger ek2 a c2
      = Except.error ("Action '" ++ a.key ++ "' is already registered in workflow '"
          ++ w1.key ++ "'") := by
  obtain ⟨ha, hk⟩ := addTrigger_ok_actions w ek1 a c1 w1 h1
  have hhas : alistHas w1.actions a.key = true := by
    rw [ha]; exact alistHas_alistSet _ _ _
  unfold Workflow.addTrigger
  rw [registerAction_of_has w1 a hhas]

/-- Witness for C4 (amended) on the fixture: rebinding `a1` under `e2` after
binding it under `e1`. -/
theorem C4_rebind_action_key_conflict_witness :
    wfGood.addTrigger "e2" actGood condTrue
      = Except.error ("Action '" ++ actGood.key ++ "' is already registered in workflow '"
          ++ wfGood.key ++ "'") :=
  C4_rebind_action_key_conflict wfBase wfGood "e1" "e2" actGood condTrue condTrue rfl

/-- Claim C10: when the selected action's result has `success = true` but no
`new_state`, the orchestrator's commit falls back to the task's previous
state (committed state unchanged), while the workflow instance's internal
current-state field becomes `undefined` — so a further `handleEvent` on that
same instance without re-hydration fails with the invalid-state result. -/
theorem C10_success_without_new_state (o : Orchestrator) (tid : String)
    (e e2 : IEvent) (now : Nat) (task : ITask) (w : Workflow)
    (trigs : List (String × ITrigger)) (l1 l2 : List ITrigger) (t : ITrigger)
    (r : IActionLogData)
    (htask : o.getTask tid = some task)
    (hw : o.getWorkflow task.workflowKey = some w)
    (hc : alistGet w.conditions e.key = some trigs)
    (hsplit : trigs.map (fun q => q.2) = l1 ++ t :: l2)
    (h1 : ∀ t2 ∈ l1, passes task.state e t2 = false)
    (ht : passes task.state e t = true)
    (hinv : t.action.invoke task.state = Except.ok r)
    (hsucc : r.success = true) (hnew : r.new_state = none) :
    (Orchestrator.handleEvent o tid e now).2.getTask tid = some task
    ∧ ((w.setState task.state).handleEvent e).2.state = none
    ∧ (((w.setState task.state).handleEvent e).2.handleEvent e2).1
        = failedResult "Invalid state" := by
  have htask2 : o.tasks.find? (fun t => t.id == tid) = some task := htask
  have hid : (task.id == tid) = true := by
    have h2 := List.find?_some htask2
    exact h2
  obtain ⟨hr1, hr2⟩ := handleEvent_selected (w.setState task.state) e task.state
    trigs l1 l2 t rfl hc hsplit h1 ht
  have hstep : invokeStep t task.state = (r, none) := by
    simp [invokeStep, hinv, hsucc, hnew]
  have hres1 : ((w.setState task.state).handleEvent e).1 = r := by
    rw [hr1, hstep]
  have hcs : ((w.setState task.state).handleEvent e).2.state = none := by
    rw [hr2, hstep]
  refine ⟨?_, hcs, ?_⟩
  · rw [orch_handleEvent_found o tid e now task w htask hw]
    simp only
    unfold Orchestrator.getTask
    simp only [hres1, hsucc, hnew, Option.getD_none, if_true]
    exact find?_updateFirst (fun t => t.id == tid) (fun _ => task) o.tasks task
      htask2 hid
  · exact handleEvent_invalid_state _ e2 hcs

/-- Witness for C10 on the fixture whose action succeeds without a
`new_state`. -/
theorem C10_success_without_new_state_witness :
    (Orchestrator.handleEvent (mkOrch wfNoNew) "t1" evE1 6).2.getTask "t1"
      = some { id := "t1", workflowKey := "wf", state := sInit, createdAt := 0 }
    ∧ ((({ wfNoNew with state := some sInit } : Workflow).setState
        sInit).handleEvent evE1).2.state = none
    ∧ (((({ wfNoNew with state := some sInit } : Workflow).setState
        sInit).handleEvent evE1).2.handleEvent evE2).1
        = failedResult "Invalid state" :=
  C10_success_without_new_state (mkOrch wfNoNew) "t1" evE1 evE2 6
    { id := "t1", workflowKey := "wf", state := sInit, createdAt := 0 }
    { wfNoNew with state := some sInit }
    [("a2", { action := actNoNew, condition := condTrue })]
    [] [] { action := actNoNew, condition := condTrue }
    { action_key := some "a2", cost := 1, success := true }
    rfl rfl rfl rfl (by intro t2 h2; cases h2) rfl rfl rfl rfl

end FSM
